import Mathlib

/-!
Verification of the candidate-analysis pipeline of `script.js`
(ICT sniper app) against its natural-language specification.

The pipeline lives in the `runAnalysisBtn` click handler and the two
functions `callGemini` and `analyzeCandidate`.  The embedding below
translates those functions into pure Lean definitions:

* JavaScript numbers are modelled as rationals (`ℚ`).  The one place the
  difference matters is division by zero (`riskAmount / 0` is `Infinity`
  in JavaScript, `0` in `ℚ`); it is flagged by a comment where it occurs
  and no theorem relies on the value produced there.
* `x.toFixed(n)` renders a number with `n` decimal digits, ties resolved
  towards the larger candidate (ECMA-262 Number.prototype.toFixed).  We
  model the numeric value of that rendering as `roundTo n x`.
* Values coming from JSON (the Gemini verdict fields) are modelled by
  `JVal`, with JavaScript truthiness (`truthy`) and `parseFloat`
  coercion (`jsParseFloatVal`).  The 24h-momentum field of a CoinGecko
  row may be a number, `null`, `NaN` or absent; it is modelled by `JNum`
  and compared with the JavaScript relational semantics (`jsGtNum`,
  `jsLtNum`: `null` coerces to `0`, `NaN`/`undefined` compare false).
* The two network calls are modelled as oracle inputs: the price-history
  fetch as a `ChartFetch` record (HTTP success flag plus the decoded
  `prices` array) and the Gemini call as a function from the data
  interpolated into the prompt (`PromptData`) to a `GeminiHttp` record
  holding the stages the source inspects (HTTP success, extracted text,
  regex match for the fenced json block, parse result).
-/

namespace Sniper

/-- Numeric value of `x.toFixed(n)`: round to `n` decimal places, ties
towards the larger candidate (ECMA-262: "pick the larger n"). -/
def roundTo (n : ℕ) (x : ℚ) : ℚ :=
  (⌊x * 10 ^ n + 1 / 2⌋ : ℚ) / 10 ^ n

/-- A JSON/JavaScript value as it can appear in a Gemini verdict field. -/
inductive JVal where
  | null
  | undef
  | num (q : ℚ)
  | nan
  | bool (b : Bool)
  | str (s : String)
deriving DecidableEq

/-- JavaScript truthiness, as used by `analysis.isValid && analysis.entry
&& analysis.stopLoss` in `analyzeCandidate`. -/
def truthy (v : JVal) : Bool :=
  match v with
  | .null => false
  | .undef => false
  | .nan => false
  | .num q => decide (q ≠ 0)
  | .bool b => b
  | .str s => decide (s ≠ "")

def digitsToNat (ds : List Char) : ℕ :=
  ds.foldl (fun acc c => acc * 10 + (c.toNat - 48)) 0

/-- Model of the JavaScript `parseFloat` builtin, restricted to plain
decimal literals: optional leading spaces, optional sign, integer digits,
optional fractional digits, longest valid prefix; `none` stands for
`NaN`.  (Exponent notation and `Infinity` literals are not modelled;
no theorem depends on them.) -/
def jsParseFloat (s : String) : Option ℚ :=
  let cs := s.data.dropWhile (fun c => c = ' ')
  let sgn : ℚ := match cs with
    | '-' :: _ => -1
    | _ => 1
  let cs' := match cs with
    | '-' :: rest => rest
    | '+' :: rest => rest
    | _ => cs
  let intDigits := cs'.takeWhile Char.isDigit
  let rest := cs'.dropWhile Char.isDigit
  let fracDigits := match rest with
    | '.' :: r => r.takeWhile Char.isDigit
    | _ => []
  if intDigits.isEmpty && fracDigits.isEmpty then none
  else some (sgn * ((digitsToNat intDigits : ℚ) +
    (digitsToNat fracDigits : ℚ) / 10 ^ fracDigits.length))

/-- `parseFloat(v)` for a JSON value `v`: `parseFloat` first converts its
argument to a string, so `null`, `undefined`, booleans and `NaN` all
parse to `NaN` (modelled `none`); a number parses to itself. -/
def jsParseFloatVal (v : JVal) : Option ℚ :=
  match v with
  | .num q => some q
  | .str s => jsParseFloat s
  | _ => none

/-- The 24h-momentum field of a CoinGecko market row: a number, JSON
`null`, `NaN`, or absent (`undefined`). -/
inductive JNum where
  | num (q : ℚ)
  | null
  | nan
  | undef
deriving DecidableEq

/-- JavaScript `v > t` for a momentum value `v` and number `t`:
`null` coerces to `0`, `NaN` and `undefined` compare false. -/
def jsGtNum (v : JNum) (t : ℚ) : Bool :=
  match v with
  | .num q => decide (t < q)
  | .null => decide (t < 0)
  | .nan => false
  | .undef => false

/-- JavaScript `v < t` for a momentum value `v` and number `t`. -/
def jsLtNum (v : JNum) (t : ℚ) : Bool :=
  match v with
  | .num q => decide (q < t)
  | .null => decide (0 < t)
  | .nan => false
  | .undef => false

/-- A CoinGecko market row, with the fields `script.js` reads. -/
structure Coin where
  id : String
  symbol : String
  name : String
  current_price : ℚ
  price_change_percentage_24h : JNum
deriving DecidableEq

inductive Direction where
  | bullish
  | bearish
deriving DecidableEq

structure Candidate where
  coin : Coin
  direction : Direction
deriving DecidableEq

/-- `topCryptos.filter(c => c.price_change_percentage_24h > threshold)`. -/
def bullishCandidates (coins : List Coin) (threshold : ℚ) : List Coin :=
  coins.filter (fun c => jsGtNum c.price_change_percentage_24h threshold)

/-- `topCryptos.filter(c => c.price_change_percentage_24h < -threshold)`. -/
def bearishCandidates (coins : List Coin) (threshold : ℚ) : List Coin :=
  coins.filter (fun c => jsLtNum c.price_change_percentage_24h (-threshold))

/-- `allCandidates = [...bullish.map(...), ...bearish.map(...)]`. -/
def allCandidates (coins : List Coin) (threshold : ℚ) : List Candidate :=
  (bullishCandidates coins threshold).map (fun c => ⟨c, Direction.bullish⟩) ++
  (bearishCandidates coins threshold).map (fun c => ⟨c, Direction.bearish⟩)

/-- The parsed JSON object extracted from the Gemini response. -/
structure Verdict where
  isValid : JVal
  entry : JVal
  stopLoss : JVal
  rationale : String
deriving DecidableEq

/-- The stages of a Gemini HTTP exchange that `callGemini` inspects:
HTTP success flag and status, the error body, the extracted response
text (`none` when missing or empty, both falsy), the regex match for the
fenced ```json block (`none` when the pattern does not match), and the
`JSON.parse` result (`none` on a parse error). -/
structure GeminiHttp where
  ok : Bool
  status : ℕ
  errorText : String
  text : Option String
  jsonMatch : Option String
  parsed : Option Verdict

/-- `callGemini`: throws (modelled `Except.error`) on a non-success
response, on missing response text, on a missing fenced json block, and
on a JSON parse failure; otherwise returns the parsed object. -/
def callGemini (resp : GeminiHttp) : Except String Verdict :=
  if !resp.ok then
    .error ("Gemini API error (" ++ toString resp.status ++ "): " ++ resp.errorText)
  else
    match resp.text with
    | none => .error "No response text from Gemini."
    | some _ =>
      match resp.jsonMatch with
      | none => .error "Gemini response did not contain a valid JSON code block."
      | some _ =>
        match resp.parsed with
        | none => .error "Failed to parse JSON from Gemini: parse error"
        | some v => .ok v

inductive TradeDir where
  | long
  | short
deriving DecidableEq, BEq

/-- The object `analyzeCandidate` returns for a valid setup.  The source
stores `toFixed` strings for entry/sl/tp/lotSize; we model the numeric
values of those renderings. -/
structure TradePlan where
  name : String
  symbol : String
  entry : ℚ
  sl : ℚ
  tp : ℚ
  lotSize : ℚ
  rr : ℚ
  notes : String
  direction : TradeDir
deriving DecidableEq

/-- Result of one `analyzeCandidate` promise: a fulfilled non-null value
(`plan`), a fulfilled `null` (`skipped`), or a rejection (`failed`). -/
inductive Outcome where
  | plan (p : TradePlan)
  | skipped
  | failed (reason : String)
deriving DecidableEq

def Outcome.getPlan? : Outcome → Option TradePlan
  | .plan p => some p
  | _ => none

def Outcome.isPlan (o : Outcome) : Bool :=
  o.getPlan?.isSome

def Outcome.reason? : Outcome → Option String
  | .failed r => some r
  | _ => none

/-- The response of the price-history fetch: HTTP success flag and the
decoded `prices` array of `[timestamp, price]` pairs. -/
structure ChartFetch where
  ok : Bool
  prices : List (ℚ × ℚ)

/-- The data `analyzeCandidate` interpolates into the Gemini prompt:
direction, upper-cased symbol, `current_price.toFixed(5)`,
`price_change_percentage_24h.toFixed(2)`, and `closes.slice(-100)`. -/
structure PromptData where
  direction : Direction
  symbol : String
  currentPrice : ℚ
  momentum : JNum
  closes : List ℚ

/-- Prompt construction (the template literal of `analyzeCandidate`):
`closes.slice(-100)` keeps the most recent 100 closes, or all of them
when fewer than 100 exist. -/
def buildPrompt (coin : Coin) (direction : Direction) (closes : List ℚ) : PromptData :=
  { direction := direction
    symbol := coin.symbol.toUpper
    currentPrice := roundTo 5 coin.current_price
    momentum := match coin.price_change_percentage_24h with
      | .num q => .num (roundTo 2 q)
      | v => v
    closes := closes.drop (closes.length - 100) }

/-- Lines 266-291 of `script.js`: validate the verdict and derive the
trade plan.  `positionUSD` is `riskAmount / riskPct`; when
`entry = stopLoss` JavaScript produces `Infinity` here (and a lot size
rendered `"Infinity"`), while `ℚ` division totalises to `0` — no theorem
below depends on the lot-size value in that case. -/
def planFromVerdict (coin : Coin) (direction : Direction) (riskAmount rr : ℚ)
    (analysis : Verdict) : Outcome :=
  if truthy analysis.isValid && truthy analysis.entry && truthy analysis.stopLoss then
    match jsParseFloatVal analysis.entry, jsParseFloatVal analysis.stopLoss with
    | some entry, some sl =>
      if entry = 0 ∨ sl = 0 then .skipped
      else
        let slDistance := |entry - sl|
        let tp := if direction = Direction.bullish then entry + slDistance * rr
          else entry - slDistance * rr
        let riskPct := slDistance / entry
        let positionUSD := riskAmount / riskPct
        let lotSize := roundTo 4 (positionUSD / entry)
        .plan
          { name := coin.name
            symbol := coin.symbol.toUpper
            entry := roundTo 5 entry
            sl := roundTo 5 sl
            tp := roundTo 5 tp
            lotSize := lotSize
            rr := rr
            notes := analysis.rationale
            direction := if direction = Direction.bullish then .long else .short }
    | _, _ => .skipped
  else .skipped

/-- `analyzeCandidate(coin, direction, apiKey)` with the two network
calls passed in as oracles.  A non-success chart response returns `null`
(`skipped`); fewer than 50 closes returns `null`; a `null`/`undefined`
momentum field would make `.toFixed(2)` throw during prompt
construction (a rejected promise, `failed`); a `callGemini` throw is a
rejection (`failed`); otherwise the verdict is processed. -/
def analyzeCandidate (coin : Coin) (direction : Direction) (riskAmount rr : ℚ)
    (chart : ChartFetch) (gemini : PromptData → GeminiHttp) : Outcome :=
  if !chart.ok then .skipped
  else
    let closes := chart.prices.map (fun p => p.2)
    if closes.length < 50 then .skipped
    else
      match coin.price_change_percentage_24h with
      | .null => .failed "TypeError: Cannot read properties of null (reading toFixed)"
      | .undef => .failed "TypeError: Cannot read properties of undefined (reading toFixed)"
      | _ =>
        match callGemini (gemini (buildPrompt coin direction closes)) with
        | .error msg => .failed msg
        | .ok analysis => planFromVerdict coin direction riskAmount rr analysis

/-- The errors the orchestrator logs: the rejection reasons
(`results.filter(r => r.status === 'rejected')`). -/
def errorsOf (rs : List Outcome) : List String :=
  rs.filterMap Outcome.reason?

/-- Lines 163-200: partition the settled results into long trade plans,
short trade plans and error messages; fulfilled `null`s are dropped. -/
def processResults (rs : List Outcome) :
    List TradePlan × List TradePlan × List String :=
  let validTrades := rs.filterMap Outcome.getPlan?
  (validTrades.filter (fun t => t.direction == TradeDir.long),
   validTrades.filter (fun t => t.direction == TradeDir.short),
   errorsOf rs)

/-!  Concrete sample inputs shared by the witnesses and counterexamples. -/

/-- Sample CoinGecko row used for concrete instantiations. -/
def sampleCoin : Coin :=
  { id := "bitcoin", symbol := "btc", name := "Bitcoin",
    current_price := 100, price_change_percentage_24h := .num 5 }

/-- A successful price-history fetch holding 50 closes. -/
def chart50 : ChartFetch :=
  { ok := true, prices := List.replicate 50 ((0 : ℚ), (1 : ℚ)) }

/-- A successful price-history fetch holding only 49 closes. -/
def chart49 : ChartFetch :=
  { ok := true, prices := List.replicate 49 ((0 : ℚ), (1 : ℚ)) }

/-- A fully successful Gemini exchange delivering the verdict `v`. -/
def okResp (v : Verdict) : GeminiHttp :=
  { ok := true, status := 200, errorText := "", text := some "ok",
    jsonMatch := some "fenced", parsed := some v }

/-- A Gemini oracle answering every prompt with the verdict `v`. -/
def constOracle (v : Verdict) : PromptData → GeminiHttp :=
  fun _ => okResp v

/-- A well-formed valid verdict with numeric entry and stop. -/
def verdictNum (e s : ℚ) : Verdict :=
  { isValid := .bool true, entry := .num e, stopLoss := .num s, rationale := "setup" }

/-- A row whose 24h change is exactly −5. -/
def negCoin : Coin :=
  { id := "drop", symbol := "drp", name := "Dropper",
    current_price := 1, price_change_percentage_24h := .num (-5) }

/-- A row whose 24h change is exactly 0. -/
def zeroCoin : Coin :=
  { id := "flat", symbol := "flt", name := "Flat",
    current_price := 1, price_change_percentage_24h := .num 0 }

/-- The per-candidate analyses the orchestrator launches
(`allCandidates.map(candidate => analyzeCandidate(...))`): index `i`
holds candidate `i`'s analysis of its own inputs; out-of-range indices
are inert. -/
def analysisOutcomes (cs : List (Coin × Direction)) (R rr : ℚ)
    (charts : List ChartFetch) (gs : List (PromptData → GeminiHttp)) : ℕ → Outcome :=
  fun i =>
    match cs[i]?, charts[i]?, gs[i]? with
    | some cd, some ch, some g => analyzeCandidate cd.1 cd.2 R rr ch g
    | _, _, _ => .skipped

/-- Shallow embedding of `Promise.allSettled(analysisPromises)`: the
table of settled results starts empty, each event-loop step settles one
launched promise with its own outcome, and `order` is the order in
which the in-flight analyses happen to finish. -/
def runSchedule (f : ℕ → Outcome) (order : List ℕ) : ℕ → Option Outcome :=
  order.foldl (fun st i => Function.update st i (some (f i))) (fun _ => none)

/-- A row whose 24h momentum field is absent. -/
def ghostCoin : Coin :=
  { id := "ghost", symbol := "gst", name := "Ghost",
    current_price := 1, price_change_percentage_24h := .undef }


/-!  Helper lemma: the exact trade plan `analyzeCandidate` emits once the
chart fetch succeeded with at least 50 closes and the verdict passed
every validation gate. -/

theorem analyze_plan_spec (coin : Coin) (dir : Direction) (R rr : ℚ)
    (chart : ChartFetch) (g : PromptData → GeminiHttp) (v : Verdict) (e s : ℚ)
    (hok : chart.ok = true)
    (hlen : 50 ≤ (chart.prices.map (fun p => p.2)).length)
    (hn : coin.price_change_percentage_24h ≠ JNum.null)
    (hu : coin.price_change_percentage_24h ≠ JNum.undef)
    (hg : callGemini (g (buildPrompt coin dir (chart.prices.map (fun p => p.2)))) = .ok v)
    (hvalid : truthy v.isValid = true)
    (hte : truthy v.entry = true) (hts : truthy v.stopLoss = true)
    (hpe : jsParseFloatVal v.entry = some e) (hps : jsParseFloatVal v.stopLoss = some s)
    (he : e ≠ 0) (hs : s ≠ 0) :
    analyzeCandidate coin dir R rr chart g = .plan
      { name := coin.name
        symbol := coin.symbol.toUpper
        entry := roundTo 5 e
        sl := roundTo 5 s
        tp := roundTo 5 (if dir = Direction.bullish then e + |e - s| * rr else e - |e - s| * rr)
        lotSize := roundTo 4 (R / (|e - s| / e) / e)
        rr := rr
        notes := v.rationale
        direction := if dir = Direction.bullish then .long else .short } := by
  have hnl : ¬ (chart.prices.map (fun p => p.2)).length < 50 := Nat.not_lt.mpr hlen
  cases hpc : coin.price_change_percentage_24h with
  | null => exact absurd hpc hn
  | undef => exact absurd hpc hu
  | num q =>
    simp [analyzeCandidate, hok, hnl, hpc, hg, planFromVerdict, hvalid, hte, hts, hpe, hps,
      he, hs]
    simpa using hlen
  | nan =>
    simp [analyzeCandidate, hok, hnl, hpc, hg, planFromVerdict, hvalid, hte, hts, hpe, hps,
      he, hs]
    simpa using hlen

/-- C1 counterexample: a verdict whose entry and stopLoss are both the
nonzero number 100 does not make `analyzeCandidate` skip — it emits a
trade plan whose stop loss equals its entry. -/
theorem analyze_equal_entry_stop_emits_plan_cex :
    (analyzeCandidate sampleCoin .bullish 10 3 chart50
        (constOracle (verdictNum 100 100))).isPlan = true ∧
    (analyzeCandidate sampleCoin .bullish 10 3 chart50
        (constOracle (verdictNum 100 100))).getPlan?.map (fun p => (p.entry, p.sl)) =
      some (100, 100) := by
  constructor
  · norm_num [analyzeCandidate, sampleCoin, chart50, constOracle, okResp, verdictNum,
      callGemini, planFromVerdict, truthy, jsParseFloatVal, Outcome.isPlan, Outcome.getPlan?]
  · norm_num [analyzeCandidate, sampleCoin, chart50, constOracle, okResp, verdictNum,
      callGemini, planFromVerdict, truthy, jsParseFloatVal, Outcome.getPlan?, roundTo]

/-- C1 (amended): when the verdict's entry and stopLoss are the same
nonzero number, `analyzeCandidate` does not skip: it emits a trade plan
whose entry, stop loss and take profit all equal that number (rounded to
5 decimals), so emitted plans can have stopLoss = entry. -/
theorem analyze_equal_entry_stop_plan (coin : Coin) (dir : Direction) (R rr : ℚ)
    (chart : ChartFetch) (g : PromptData → GeminiHttp) (v : Verdict) (e : ℚ)
    (hok : chart.ok = true)
    (hlen : 50 ≤ (chart.prices.map (fun p => p.2)).length)
    (hn : coin.price_change_percentage_24h ≠ JNum.null)
    (hu : coin.price_change_percentage_24h ≠ JNum.undef)
    (hg : callGemini (g (buildPrompt coin dir (chart.prices.map (fun p => p.2)))) = .ok v)
    (hvalid : truthy v.isValid = true)
    (hve : v.entry = .num e) (hvs : v.stopLoss = .num e) (he : e ≠ 0) :
    (analyzeCandidate coin dir R rr chart g).getPlan?.map (fun p => (p.entry, p.sl, p.tp)) =
      some (roundTo 5 e, roundTo 5 e, roundTo 5 e) := by
  have hte : truthy v.entry = true := by rw [hve]; simpa [truthy] using he
  have hts : truthy v.stopLoss = true := by rw [hvs]; simpa [truthy] using he
  have hpe : jsParseFloatVal v.entry = some e := by rw [hve]; rfl
  have hps : jsParseFloatVal v.stopLoss = some e := by rw [hvs]; rfl
  rw [analyze_plan_spec coin dir R rr chart g v e e hok hlen hn hu hg hvalid hte hts hpe
    hps he he]
  cases dir <;> simp [Outcome.getPlan?]

/-- C1 witness: the amended statement at the concrete input (entry 100,
stopLoss 100, risk 10, reward multiple 3). -/
theorem analyze_equal_entry_stop_plan_witness :
    (analyzeCandidate sampleCoin .bullish 10 3 chart50
        (constOracle (verdictNum 100 100))).getPlan?.map (fun p => (p.entry, p.sl, p.tp)) =
      some (100, 100, 100) := by
  have h := analyze_equal_entry_stop_plan sampleCoin .bullish 10 3 chart50
    (constOracle (verdictNum 100 100)) (verdictNum 100 100) 100 rfl (by decide) (by decide)
    (by decide) rfl (by decide) rfl rfl (by norm_num)
  rw [h]
  norm_num [roundTo]

/-- C2: every trade plan emitted by `analyzeCandidate` carries
takeProfit = entry ± |entry − stopLoss| × rr (sign by direction) and
lotSize = (R / (|entry − stopLoss| / entry)) / entry rounded to 4
decimal places, prices rounded to 5. -/
theorem analyze_tradePlan_formula (coin : Coin) (dir : Direction) (R rr : ℚ)
    (chart : ChartFetch) (g : PromptData → GeminiHttp) (v : Verdict) (e s : ℚ)
    (hok : chart.ok = true)
    (hlen : 50 ≤ (chart.prices.map (fun p => p.2)).length)
    (hn : coin.price_change_percentage_24h ≠ JNum.null)
    (hu : coin.price_change_percentage_24h ≠ JNum.undef)
    (hg : callGemini (g (buildPrompt coin dir (chart.prices.map (fun p => p.2)))) = .ok v)
    (hvalid : truthy v.isValid = true)
    (hte : truthy v.entry = true) (hts : truthy v.stopLoss = true)
    (hpe : jsParseFloatVal v.entry = some e) (hps : jsParseFloatVal v.stopLoss = some s)
    (he : e ≠ 0) (hs : s ≠ 0) :
    analyzeCandidate coin dir R rr chart g = .plan
      { name := coin.name
        symbol := coin.symbol.toUpper
        entry := roundTo 5 e
        sl := roundTo 5 s
        tp := roundTo 5 (if dir = Direction.bullish then e + |e - s| * rr else e - |e - s| * rr)
        lotSize := roundTo 4 (R / (|e - s| / e) / e)
        rr := rr
        notes := v.rationale
        direction := if dir = Direction.bullish then .long else .short } :=
  analyze_plan_spec coin dir R rr chart g v e s hok hlen hn hu hg hvalid hte hts hpe hps he hs

/-- C2 witness: entry 100, stopLoss 95, reward multiple 3, risk 10 gives
takeProfit 115 and lot size 2 (the spec's end-to-end scenario A). -/
theorem analyze_tradePlan_formula_witness :
    analyzeCandidate sampleCoin .bullish 10 3 chart50 (constOracle (verdictNum 100 95)) =
      .plan { name := "Bitcoin", symbol := "btc".toUpper, entry := 100, sl := 95, tp := 115,
              lotSize := 2, rr := 3, notes := "setup", direction := .long } := by
  have h := analyze_tradePlan_formula sampleCoin .bullish 10 3 chart50
    (constOracle (verdictNum 100 95)) (verdictNum 100 95) 100 95 rfl (by decide) (by decide)
    (by decide) rfl (by decide) (by decide) (by decide) rfl rfl (by norm_num) (by norm_num)
  rw [h]
  norm_num [sampleCoin, verdictNum, roundTo]

/-- C3 counterexample: with the (permitted, unclamped) negative
threshold −5, a snapshot whose 24h change is exactly equal to the
threshold is selected as a Bearish candidate, so the boundary is not
exclusive for every threshold. -/
theorem boundary_at_threshold_selected_cex :
    allCandidates [negCoin] (-5) = [⟨negCoin, .bearish⟩] ∧
    negCoin.price_change_percentage_24h = .num (-5) := by
  constructor <;> decide

/-- C3 (amended): for every nonnegative threshold, a snapshot whose 24h
change is exactly `t` or exactly `−t` yields no candidate — every
selected candidate's momentum differs from both boundaries. -/
theorem boundary_exclusive (coins : List Coin) (t : ℚ) (ht : 0 ≤ t)
    (cand : Candidate) (hc : cand ∈ allCandidates coins t) :
    cand.coin.price_change_percentage_24h ≠ JNum.num t ∧
    cand.coin.price_change_percentage_24h ≠ JNum.num (-t) := by
  have hc' := hc
  simp only [allCandidates, List.mem_append, List.mem_map, bullishCandidates,
    bearishCandidates, List.mem_filter] at hc'
  rcases hc' with ⟨c, ⟨_, hp⟩, rfl⟩ | ⟨c, ⟨_, hp⟩, rfl⟩
  · constructor
    · intro hEq
      rw [hEq] at hp
      simp [jsGtNum] at hp
    · intro hEq
      rw [hEq] at hp
      simp [jsGtNum] at hp
      linarith
  · constructor
    · intro hEq
      rw [hEq] at hp
      simp [jsLtNum] at hp
      linarith
    · intro hEq
      rw [hEq] at hp
      simp [jsLtNum] at hp

/-- C3 witness: threshold 3 with the sample list; its one candidate's
momentum (5) is on neither boundary. -/
theorem boundary_exclusive_witness :
    (0 : ℚ) ≤ 3 ∧ (⟨sampleCoin, .bullish⟩ : Candidate) ∈ allCandidates [sampleCoin] 3 ∧
    sampleCoin.price_change_percentage_24h ≠ JNum.num 3 ∧
    sampleCoin.price_change_percentage_24h ≠ JNum.num (-3) := by
  have h := boundary_exclusive [sampleCoin] 3 (by norm_num)
    ⟨sampleCoin, Direction.bullish⟩ (by decide)
  exact ⟨by norm_num, by decide, h.1, h.2⟩

/-- C4 counterexample: with the negative threshold −5, the flat snapshot
(change 0) is selected both as Bullish and as Bearish, so it appears
twice in the output. -/
theorem duplicate_candidate_cex :
    allCandidates [zeroCoin] (-5) = [⟨zeroCoin, .bullish⟩, ⟨zeroCoin, .bearish⟩] ∧
    ¬ ((allCandidates [zeroCoin] (-5)).map Candidate.coin).Nodup := by
  constructor <;> decide

/-- C4 (amended): the output is all Bullish candidates in input order
(a sublist of the input) followed by all Bearish candidates in input
order; for a duplicate-free input and a nonnegative threshold no
snapshot appears twice. -/
theorem candidates_order (coins : List Coin) (t : ℚ) :
    (∃ bs rs, allCandidates coins t = bs ++ rs ∧
      (∀ cand ∈ bs, cand.direction = Direction.bullish) ∧
      (∀ cand ∈ rs, cand.direction = Direction.bearish) ∧
      (bs.map Candidate.coin).Sublist coins ∧
      (rs.map Candidate.coin).Sublist coins) ∧
    (coins.Nodup → 0 ≤ t → ((allCandidates coins t).map Candidate.coin).Nodup) := by
  constructor
  · refine ⟨(bullishCandidates coins t).map (fun c => ⟨c, Direction.bullish⟩),
      (bearishCandidates coins t).map (fun c => ⟨c, Direction.bearish⟩), rfl, ?_, ?_, ?_, ?_⟩
    · intro cand h
      rcases List.mem_map.1 h with ⟨c, _, rfl⟩
      rfl
    · intro cand h
      rcases List.mem_map.1 h with ⟨c, _, rfl⟩
      rfl
    · have hb : ((bullishCandidates coins t).map
          (fun c => (⟨c, Direction.bullish⟩ : Candidate))).map Candidate.coin =
          bullishCandidates coins t := by
        rw [List.map_map]
        have hco : (Candidate.coin ∘ fun c => (⟨c, Direction.bullish⟩ : Candidate)) = id := rfl
        rw [hco, List.map_id]
      rw [hb]
      exact List.filter_sublist coins
    · have hb : ((bearishCandidates coins t).map
          (fun c => (⟨c, Direction.bearish⟩ : Candidate))).map Candidate.coin =
          bearishCandidates coins t := by
        rw [List.map_map]
        have hco : (Candidate.coin ∘ fun c => (⟨c, Direction.bearish⟩ : Candidate)) = id := rfl
        rw [hco, List.map_id]
      rw [hb]
      exact List.filter_sublist coins
  · intro hnd ht
    have hmap : (allCandidates coins t).map Candidate.coin =
        bullishCandidates coins t ++ bearishCandidates coins t := by
      rw [allCandidates, List.map_append, List.map_map, List.map_map]
      have h1 : (Candidate.coin ∘ fun c => (⟨c, Direction.bullish⟩ : Candidate)) = id := rfl
      have h2 : (Candidate.coin ∘ fun c => (⟨c, Direction.bearish⟩ : Candidate)) = id := rfl
      rw [h1, h2, List.map_id, List.map_id]
    rw [hmap]
    refine List.Nodup.append (hnd.filter _) (hnd.filter _) ?_
    intro a ha hb
    have hp : jsGtNum a.price_change_percentage_24h t = true :=
      (List.mem_filter.1 ha).2
    have hq : jsLtNum a.price_change_percentage_24h (-t) = true :=
      (List.mem_filter.1 hb).2
    cases hpc : a.price_change_percentage_24h with
    | num q =>
      rw [hpc] at hp hq
      simp [jsGtNum] at hp
      simp [jsLtNum] at hq
      linarith
    | null =>
      rw [hpc] at hp
      simp [jsGtNum] at hp
      linarith
    | nan =>
      rw [hpc] at hp
      simp [jsGtNum] at hp
    | undef =>
      rw [hpc] at hp
      simp [jsGtNum] at hp

/-- C4 witness: the order-and-uniqueness statement at a concrete
two-row input with threshold 3. -/
theorem candidates_order_witness :
    [sampleCoin, negCoin].Nodup ∧ (0 : ℚ) ≤ 3 ∧
    ((allCandidates [sampleCoin, negCoin] 3).map Candidate.coin).Nodup := by
  have h := (candidates_order [sampleCoin, negCoin] 3).2 (by decide) (by norm_num)
  exact ⟨by decide, by norm_num, h⟩

/-- Helper: once the chart fetch succeeded with at least 50 closes and
the Gemini call returned a parsed verdict, `analyzeCandidate` reduces to
the verdict-processing step. -/
theorem analyze_reaches_verdict (coin : Coin) (dir : Direction) (R rr : ℚ)
    (chart : ChartFetch) (g : PromptData → GeminiHttp) (v : Verdict)
    (hok : chart.ok = true)
    (hlen : 50 ≤ (chart.prices.map (fun p => p.2)).length)
    (hn : coin.price_change_percentage_24h ≠ JNum.null)
    (hu : coin.price_change_percentage_24h ≠ JNum.undef)
    (hg : callGemini (g (buildPrompt coin dir (chart.prices.map (fun p => p.2)))) = .ok v) :
    analyzeCandidate coin dir R rr chart g = planFromVerdict coin dir R rr v := by
  have hnl : ¬ chart.prices.length < 50 := by
    simpa using Nat.not_lt.mpr hlen
  cases hpc : coin.price_change_percentage_24h with
  | null => exact absurd hpc hn
  | undef => exact absurd hpc hu
  | num q => simp [analyzeCandidate, hok, hnl, hpc, hg]
  | nan => simp [analyzeCandidate, hok, hnl, hpc, hg]

/-- Helper: `callGemini` fails whenever the response is non-success or
any extraction stage is missing. -/
theorem callGemini_error (resp : GeminiHttp)
    (h : resp.ok = false ∨ resp.text = none ∨ resp.jsonMatch = none ∨ resp.parsed = none) :
    ∃ msg, callGemini resp = .error msg := by
  by_cases hko : resp.ok = true
  · cases htext : resp.text with
    | none =>
      exact ⟨"No response text from Gemini.", by simp [callGemini, hko, htext]⟩
    | some s =>
      cases hjm : resp.jsonMatch with
      | none =>
        exact ⟨"Gemini response did not contain a valid JSON code block.",
          by simp [callGemini, hko, htext, hjm]⟩
      | some j =>
        cases hpv : resp.parsed with
        | none =>
          exact ⟨"Failed to parse JSON from Gemini: parse error",
            by simp [callGemini, hko, htext, hjm, hpv]⟩
        | some v =>
          rcases h with h | h | h | h
          · rw [hko] at h
            cases h
          · rw [htext] at h
            cases h
          · rw [hjm] at h
            cases h
          · rw [hpv] at h
            cases h
  · have hko' : resp.ok = false := by
      revert hko
      cases resp.ok <;> simp
    exact ⟨"Gemini API error (" ++ toString resp.status ++ "): " ++ resp.errorText,
      by simp [callGemini, hko']⟩

/-- C5: fewer than 50 closes yields Skipped for every reasoning oracle
(so the reasoning service is never consulted); with at least 50 closes
(and a renderable momentum field) the analysis proceeds to prompt
construction and hands the built prompt to the oracle; the prompt embeds
`closes.slice(-100)`: the most recent 100 closes, or all of them when
fewer than 100 exist. -/
theorem short_series_skips (coin : Coin) (dir : Direction) (R rr : ℚ)
    (chart : ChartFetch) (hok : chart.ok = true) :
    ((chart.prices.map (fun p => p.2)).length < 50 →
      ∀ g, analyzeCandidate coin dir R rr chart g = .skipped) ∧
    (50 ≤ (chart.prices.map (fun p => p.2)).length →
      coin.price_change_percentage_24h ≠ JNum.null →
      coin.price_change_percentage_24h ≠ JNum.undef →
      ∀ g, analyzeCandidate coin dir R rr chart g =
        match callGemini (g (buildPrompt coin dir (chart.prices.map (fun p => p.2)))) with
        | .error msg => .failed msg
        | .ok v => planFromVerdict coin dir R rr v) ∧
    ((buildPrompt coin dir (chart.prices.map (fun p => p.2))).closes =
      (chart.prices.map (fun p => p.2)).drop
        ((chart.prices.map (fun p => p.2)).length - 100)) ∧
    ((chart.prices.map (fun p => p.2)).length ≤ 100 →
      (buildPrompt coin dir (chart.prices.map (fun p => p.2))).closes =
        chart.prices.map (fun p => p.2)) ∧
    (100 ≤ (chart.prices.map (fun p => p.2)).length →
      (buildPrompt coin dir (chart.prices.map (fun p => p.2))).closes.length = 100) := by
  refine ⟨?_, ?_, ?_, ?_, ?_⟩
  · intro hlt g
    have hlt' : chart.prices.length < 50 := by simpa using hlt
    simp [analyzeCandidate, hok, hlt']
  · intro hge hn hu g
    have hnl : ¬ chart.prices.length < 50 := by
      simpa using Nat.not_lt.mpr hge
    cases hpc : coin.price_change_percentage_24h with
    | null => exact absurd hpc hn
    | undef => exact absurd hpc hu
    | num q => simp [analyzeCandidate, hok, hnl, hpc]
    | nan => simp [analyzeCandidate, hok, hnl, hpc]
  · simp [buildPrompt]
  · intro hle
    simp [buildPrompt, Nat.sub_eq_zero_of_le (by simpa using hle : chart.prices.length ≤ 100)]
  · intro h100
    have h100' : 100 ≤ chart.prices.length := by simpa using h100
    simp [buildPrompt]
    omega

/-- C5 witness: 49 closes is skipped; with 50 closes the prompt carries
all 50 closes. -/
theorem short_series_skips_witness :
    analyzeCandidate sampleCoin .bullish 10 3 chart49
        (constOracle (verdictNum 100 95)) = .skipped ∧
    (buildPrompt sampleCoin .bullish (chart50.prices.map (fun p => p.2))).closes =
      chart50.prices.map (fun p => p.2) := by
  have h49 := short_series_skips sampleCoin .bullish 10 3 chart49 rfl
  have h50 := short_series_skips sampleCoin .bullish 10 3 chart50 rfl
  exact ⟨h49.1 (by decide) _, h50.2.2.2.1 (by decide)⟩

/-- C6: failure handling is asymmetric: a non-success chart response is
a silent skip; a non-success or payload-less Gemini response is a
failure whose reason the orchestrator collects, while skipped outcomes
contribute neither a trade nor an error. -/
theorem transport_asymmetry (coin : Coin) (dir : Direction) (R rr : ℚ)
    (chart : ChartFetch) (g : PromptData → GeminiHttp)
    (hn : coin.price_change_percentage_24h ≠ JNum.null)
    (hu : coin.price_change_percentage_24h ≠ JNum.undef) :
    (chart.ok = false → analyzeCandidate coin dir R rr chart g = .skipped) ∧
    (chart.ok = true → 50 ≤ (chart.prices.map (fun p => p.2)).length →
      (g (buildPrompt coin dir (chart.prices.map (fun p => p.2)))).ok = false →
      analyzeCandidate coin dir R rr chart g = .failed
        ("Gemini API error (" ++
          toString (g (buildPrompt coin dir (chart.prices.map (fun p => p.2)))).status ++
          "): " ++ (g (buildPrompt coin dir (chart.prices.map (fun p => p.2)))).errorText)) ∧
    (chart.ok = true → 50 ≤ (chart.prices.map (fun p => p.2)).length →
      ((g (buildPrompt coin dir (chart.prices.map (fun p => p.2)))).ok = false ∨
       (g (buildPrompt coin dir (chart.prices.map (fun p => p.2)))).text = none ∨
       (g (buildPrompt coin dir (chart.prices.map (fun p => p.2)))).jsonMatch = none ∨
       (g (buildPrompt coin dir (chart.prices.map (fun p => p.2)))).parsed = none) →
      ∃ msg, analyzeCandidate coin dir R rr chart g = .failed msg) ∧
    (∀ rs m, Outcome.failed m ∈ rs → m ∈ errorsOf rs) ∧
    (∀ rs, processResults (Outcome.skipped :: rs) = processResults rs) := by
  refine ⟨?_, ?_, ?_, ?_, ?_⟩
  · intro hbad
    simp [analyzeCandidate, hbad]
  · intro hok hge hfail
    have hnl : ¬ chart.prices.length < 50 := by
      simpa using Nat.not_lt.mpr hge
    cases hpc : coin.price_change_percentage_24h with
    | null => exact absurd hpc hn
    | undef => exact absurd hpc hu
    | num q => simp [analyzeCandidate, hok, hnl, hpc, callGemini, hfail]
    | nan => simp [analyzeCandidate, hok, hnl, hpc, callGemini, hfail]
  · intro hok hge hmiss
    have hnl : ¬ chart.prices.length < 50 := by
      simpa using Nat.not_lt.mpr hge
    obtain ⟨msg, hmsg⟩ :=
      callGemini_error _ hmiss
    refine ⟨msg, ?_⟩
    cases hpc : coin.price_change_percentage_24h with
    | null => exact absurd hpc hn
    | undef => exact absurd hpc hu
    | num q => simp [analyzeCandidate, hok, hnl, hpc, hmsg]
    | nan => simp [analyzeCandidate, hok, hnl, hpc, hmsg]
  · intro rs m hm
    exact List.mem_filterMap.2 ⟨Outcome.failed m, hm, rfl⟩
  · intro rs
    simp [processResults, errorsOf, Outcome.getPlan?, Outcome.reason?]

/-- C6 witness: a failed chart fetch is skipped; a 500 from Gemini is a
failure carrying the API error message, which lands in the collected
errors; a response with no fenced block fails; a skipped outcome leaves
the processed results unchanged. -/
theorem transport_asymmetry_witness :
    analyzeCandidate sampleCoin .bullish 10 3 { ok := false, prices := [] }
        (constOracle (verdictNum 100 95)) = .skipped ∧
    analyzeCandidate sampleCoin .bullish 10 3 chart50
        (fun _ => { ok := false, status := 500, errorText := "boom", text := none,
                    jsonMatch := none, parsed := none }) =
      .failed ("Gemini API error (" ++ toString 500 ++ "): " ++ "boom") ∧
    (∃ msg, analyzeCandidate sampleCoin .bullish 10 3 chart50
        (fun _ => { ok := true, status := 200, errorText := "", text := some "chat",
                    jsonMatch := none, parsed := none }) = .failed msg) ∧
    "boom" ∈ errorsOf [Outcome.skipped, Outcome.failed "boom"] ∧
    processResults (Outcome.skipped :: [Outcome.failed "boom"]) =
      processResults [Outcome.failed "boom"] := by
  have h1 := transport_asymmetry sampleCoin .bullish 10 3 { ok := false, prices := [] }
    (constOracle (verdictNum 100 95)) (by decide) (by decide)
  have h2 := transport_asymmetry sampleCoin .bullish 10 3 chart50
    (fun _ => { ok := false, status := 500, errorText := "boom", text := none,
                jsonMatch := none, parsed := none }) (by decide) (by decide)
  have h3 := transport_asymmetry sampleCoin .bullish 10 3 chart50
    (fun _ => { ok := true, status := 200, errorText := "", text := some "chat",
                jsonMatch := none, parsed := none }) (by decide) (by decide)
  refine ⟨h1.1 rfl, h2.2.1 rfl (by decide) rfl, h3.2.2.1 rfl (by decide) (by simp),
    h2.2.2.2.1 [Outcome.skipped, Outcome.failed "boom"] "boom" (by simp),
    h2.2.2.2.2 [Outcome.failed "boom"]⟩

/-- C7: a verdict whose isValid is truthy but whose entry is 0, or whose
entry or stopLoss is missing or parses to NaN, makes `analyzeCandidate`
return Skipped, never a trade plan. -/
theorem invalid_verdict_skipped (coin : Coin) (dir : Direction) (R rr : ℚ)
    (chart : ChartFetch) (g : PromptData → GeminiHttp) (v : Verdict)
    (hok : chart.ok = true)
    (hlen : 50 ≤ (chart.prices.map (fun p => p.2)).length)
    (hn : coin.price_change_percentage_24h ≠ JNum.null)
    (hu : coin.price_change_percentage_24h ≠ JNum.undef)
    (hg : callGemini (g (buildPrompt coin dir (chart.prices.map (fun p => p.2)))) = .ok v)
    (hvalid : truthy v.isValid = true)
    (hbad : v.entry = JVal.num 0 ∨ v.entry = JVal.undef ∨ v.stopLoss = JVal.undef ∨
      jsParseFloatVal v.entry = none ∨ jsParseFloatVal v.stopLoss = none) :
    analyzeCandidate coin dir R rr chart g = .skipped := by
  rw [analyze_reaches_verdict coin dir R rr chart g v hok hlen hn hu hg]
  unfold planFromVerdict
  by_cases htr : (truthy v.isValid && truthy v.entry && truthy v.stopLoss) = true
  · rcases hbad with h | h | h | h | h
    · rw [h] at htr
      simp [truthy] at htr
    · rw [h] at htr
      simp [truthy] at htr
    · rw [h] at htr
      simp [truthy] at htr
    · cases hps : jsParseFloatVal v.stopLoss <;> simp [htr, h, hps]
    · cases hpe : jsParseFloatVal v.entry <;> simp [htr, h, hpe]
  · simp [htr]

/-- C7 witness: isValid true with entry 0 is skipped. -/
theorem invalid_verdict_skipped_witness :
    analyzeCandidate sampleCoin .bullish 10 3 chart50
      (constOracle { isValid := .bool true, entry := .num 0, stopLoss := .num 95,
                     rationale := "zero" }) = .skipped := by
  exact invalid_verdict_skipped sampleCoin .bullish 10 3 chart50
    (constOracle { isValid := .bool true, entry := .num 0, stopLoss := .num 95,
                   rationale := "zero" })
    { isValid := .bool true, entry := .num 0, stopLoss := .num 95, rationale := "zero" }
    rfl (by decide) (by decide) (by decide) rfl rfl (Or.inl rfl)

/-- Helper: the settled table after running a schedule. -/
theorem foldl_update_eval (f : ℕ → Outcome) (order : List ℕ)
    (st : ℕ → Option Outcome) (j : ℕ) :
    order.foldl (fun s i => Function.update s i (some (f i))) st j =
      if j ∈ order then some (f j) else st j := by
  induction order generalizing st with
  | nil => simp
  | cons a l ih =>
    simp only [List.foldl_cons, ih, List.mem_cons]
    by_cases hj : j ∈ l
    · simp [hj]
    · by_cases ha : j = a
      · simp [hj, ha, Function.update_apply]
      · simp [hj, ha, Function.update_apply]

/-- C8: under any settling order of the concurrently launched analyses
that covers every candidate index (the all-settled condition), each
candidate's slot holds exactly its own analysis outcome, and one
analysis's outcome never alters another slot: a failure cannot abort or
suppress the other candidates. -/
theorem orchestrator_waits_for_all (cs : List (Coin × Direction)) (R rr : ℚ)
    (charts : List ChartFetch) (gs : List (PromptData → GeminiHttp)) (order : List ℕ)
    (hall : ∀ i, i < cs.length → i ∈ order) :
    (∀ i, i < cs.length →
      runSchedule (analysisOutcomes cs R rr charts gs) order i =
        some (analysisOutcomes cs R rr charts gs i)) ∧
    (∀ (f h : ℕ → Outcome) (j : ℕ), f j = h j →
      runSchedule f order j = runSchedule h order j) := by
  constructor
  · intro i hi
    rw [runSchedule, foldl_update_eval]
    simp [hall i hi]
  · intro f h j hfh
    rw [runSchedule, runSchedule, foldl_update_eval, foldl_update_eval, hfh]

/-- C8 witness: two candidates settling out of launch order ([1, 0]);
candidate 0's slot holds its own outcome. -/
theorem orchestrator_waits_for_all_witness :
    (∀ i, i < 2 → i ∈ [1, 0]) ∧
    runSchedule (analysisOutcomes [(sampleCoin, .bullish), (negCoin, .bearish)] 10 3
        [chart50, chart49]
        [constOracle (verdictNum 100 95), constOracle (verdictNum 100 95)]) [1, 0] 0 =
      some (analysisOutcomes [(sampleCoin, .bullish), (negCoin, .bearish)] 10 3
        [chart50, chart49]
        [constOracle (verdictNum 100 95), constOracle (verdictNum 100 95)] 0) := by
  have h := orchestrator_waits_for_all [(sampleCoin, .bullish), (negCoin, .bearish)] 10 3
    [chart50, chart49] [constOracle (verdictNum 100 95), constOracle (verdictNum 100 95)]
    [1, 0] (by decide)
  exact ⟨by decide, h.1 0 (by decide)⟩

/-- C9 counterexample: a Bearish candidate with verdict entry 100 and
stopLoss 50 (reward multiple 3) is emitted with takeProfit −50, which is
not strictly positive. -/
theorem negative_takeProfit_cex :
    (analyzeCandidate negCoin .bearish 10 3 chart50
        (constOracle (verdictNum 100 50))).getPlan?.map (fun p => p.tp) = some (-50) ∧
    ¬ (0 < (-50 : ℚ)) := by
  constructor
  · have hd : Direction.bearish ≠ Direction.bullish := by decide
    norm_num [hd, analyzeCandidate, negCoin, chart50, constOracle, okResp, verdictNum,
      callGemini, planFromVerdict, truthy, jsParseFloatVal, Outcome.getPlan?, roundTo]
  · norm_num

/-- C9 (amended): every emitted trade plan's prices are exact 5-decimal
roundings (integer numerators over 10^5), its lot size a 4-decimal
rounding, derived from nonzero entry and stop; strict positivity of the
monetary fields is not guaranteed by the code. -/
theorem tradePlan_fixed_precision (coin : Coin) (dir : Direction) (R rr : ℚ)
    (chart : ChartFetch) (g : PromptData → GeminiHttp) (v : Verdict) (e s : ℚ)
    (hok : chart.ok = true)
    (hlen : 50 ≤ (chart.prices.map (fun p => p.2)).length)
    (hn : coin.price_change_percentage_24h ≠ JNum.null)
    (hu : coin.price_change_percentage_24h ≠ JNum.undef)
    (hg : callGemini (g (buildPrompt coin dir (chart.prices.map (fun p => p.2)))) = .ok v)
    (hvalid : truthy v.isValid = true)
    (hte : truthy v.entry = true) (hts : truthy v.stopLoss = true)
    (hpe : jsParseFloatVal v.entry = some e) (hps : jsParseFloatVal v.stopLoss = some s)
    (he : e ≠ 0) (hs : s ≠ 0) :
    ∃ p, analyzeCandidate coin dir R rr chart g = .plan p ∧
      (∃ k : ℤ, p.entry = (k : ℚ) / 10 ^ 5) ∧
      (∃ k : ℤ, p.sl = (k : ℚ) / 10 ^ 5) ∧
      (∃ k : ℤ, p.tp = (k : ℚ) / 10 ^ 5) ∧
      (∃ k : ℤ, p.lotSize = (k : ℚ) / 10 ^ 4) ∧
      e ≠ 0 ∧ s ≠ 0 := by
  refine ⟨_, analyze_plan_spec coin dir R rr chart g v e s hok hlen hn hu hg hvalid hte
    hts hpe hps he hs, ?_, ?_, ?_, ?_, he, hs⟩
  all_goals exact ⟨_, rfl⟩

/-- C9 witness: the fixed-precision statement at the concrete
entry-100/stop-95 verdict. -/
theorem tradePlan_fixed_precision_witness :
    ∃ p, analyzeCandidate sampleCoin .bullish 10 3 chart50
        (constOracle (verdictNum 100 95)) = .plan p ∧
      (∃ k : ℤ, p.entry = (k : ℚ) / 10 ^ 5) ∧
      (∃ k : ℤ, p.sl = (k : ℚ) / 10 ^ 5) ∧
      (∃ k : ℤ, p.tp = (k : ℚ) / 10 ^ 5) ∧
      (∃ k : ℤ, p.lotSize = (k : ℚ) / 10 ^ 4) ∧
      (100 : ℚ) ≠ 0 ∧ (95 : ℚ) ≠ 0 :=
  tradePlan_fixed_precision sampleCoin .bullish 10 3 chart50
    (constOracle (verdictNum 100 95)) (verdictNum 100 95) 100 95 rfl (by decide)
    (by decide) (by decide) rfl (by decide) (by decide) (by decide) rfl rfl
    (by norm_num) (by norm_num)

/-- C10: a snapshot whose 24h momentum is absent (undefined) or NaN is
selected in neither direction for any threshold: both strict
comparisons are false on a non-numeric momentum. -/
theorem non_numeric_momentum_unselected (coins : List Coin) (t : ℚ) (c : Coin)
    (h : c.price_change_percentage_24h = JNum.undef ∨
         c.price_change_percentage_24h = JNum.nan) :
    c ∉ (allCandidates coins t).map Candidate.coin := by
  intro hmem
  rcases List.mem_map.1 hmem with ⟨cand, hcand, hcc⟩
  simp only [allCandidates, List.mem_append, List.mem_map, bullishCandidates,
    bearishCandidates, List.mem_filter] at hcand
  rcases hcand with ⟨a, ⟨_, hp⟩, rfl⟩ | ⟨a, ⟨_, hp⟩, rfl⟩
  · have hac : a = c := hcc
    rw [hac] at hp
    rcases h with h | h <;> rw [h] at hp <;> simp [jsGtNum] at hp
  · have hac : a = c := hcc
    rw [hac] at hp
    rcases h with h | h <;> rw [h] at hp <;> simp [jsLtNum] at hp

/-- C10 witness: a momentum-less row in a concrete list is not among
the selected snapshots at threshold 3. -/
theorem non_numeric_momentum_unselected_witness :
    (ghostCoin.price_change_percentage_24h = JNum.undef ∨
     ghostCoin.price_change_percentage_24h = JNum.nan) ∧
    ghostCoin ∉ (allCandidates [ghostCoin, sampleCoin] 3).map Candidate.coin := by
  have h := non_numeric_momentum_unselected [ghostCoin, sampleCoin] 3 ghostCoin (Or.inl rfl)
  exact ⟨Or.inl rfl, h⟩

end Sniper
